import Mathlib

/-!
Shallow embedding of `tg_searcher`'s index layer (`src/tg_searcher/indexer.py`),
the whoosh operations it delegates to, and the schema check in `Indexer.__init__`.

Modelling conventions:
* The whoosh index is the list of its stored-field documents, in insertion
  (docnum) order.
* Python's `str`/`int` conversion of a `chat_id` is modelled as the sign plus
  the little-endian list of decimal digits of the integer (`PyIntStr`); two
  integers render to the same `PyIntStr` exactly when the decimal strings are
  equal, so equality of `PyIntStr` values models equality of the strings.
* A parsed whoosh query over the `content` field is abstracted as a Boolean
  predicate `q : String → Bool` on the stored content; the highlighter is
  abstracted as a function `hl : StoredDoc → String`, since the claims under
  study do not depend on either.
* Python exceptions surface as the `PyError` summand of `Except`.
-/

namespace TgSearcher

/-- Python exceptions that the modelled code paths can raise:
`IndexError` from `random.choice` on an empty sequence, `ValueError` from
whoosh's `search_page`/`ResultsPage`, and the `AssertionError` of the schema
assert in `Indexer.__init__`. -/
inductive PyError where
  | indexError : PyError
  | valueError : String → PyError
  | assertionError : PyError
deriving DecidableEq, Repr

/-- Little-endian decimal digits of `n`, with explicit fuel so that the
recursion is structural (the fuel `n` itself always suffices). -/
def pyDigitsAux : Nat → Nat → List Nat
  | _, 0 => []
  | 0, _ + 1 => []
  | fuel + 1, n + 1 => (n + 1) % 10 :: pyDigitsAux fuel ((n + 1) / 10)

/-- Little-endian decimal digits of `n` (empty for `0`). -/
def pyDigits (n : Nat) : List Nat := pyDigitsAux n n

/-- Value of a little-endian decimal digit list. -/
def pyOfDigits : List Nat → Nat
  | [] => 0
  | d :: ds => d + 10 * pyOfDigits ds

/-- Model of the Python decimal string of an integer: a sign and the decimal
digits of its absolute value. `str` on `int` produces exactly this data. -/
structure PyIntStr where
  neg : Bool
  digits : List Nat
deriving DecidableEq, Repr

/-- Model of Python `str(i)` for an `int` `i`. -/
def pyStr (i : Int) : PyIntStr :=
  if i < 0 then ⟨true, pyDigits i.natAbs⟩ else ⟨false, pyDigits i.toNat⟩

/-- Model of Python `int(s)` on a decimal string. -/
def pyInt (s : PyIntStr) : Int :=
  if s.neg then -(pyOfDigits s.digits : Int) else (pyOfDigits s.digits : Int)

theorem pyOfDigits_pyDigitsAux : ∀ (fuel n : Nat), n ≤ fuel →
    pyOfDigits (pyDigitsAux fuel n) = n := by
  intro fuel
  induction fuel with
  | zero =>
    intro n hn
    interval_cases n
    rfl
  | succ fuel ih =>
    intro n hn
    match n with
    | 0 => rfl
    | m + 1 =>
      have hdiv : (m + 1) / 10 < m + 1 := Nat.div_lt_self (Nat.succ_pos m) (by omega)
      have hfuel : (m + 1) / 10 ≤ fuel := by omega
      simp only [pyDigitsAux, pyOfDigits, ih _ hfuel]
      exact Nat.mod_add_div (m + 1) 10

theorem pyOfDigits_pyDigits (n : Nat) : pyOfDigits (pyDigits n) = n :=
  pyOfDigits_pyDigitsAux n n (Nat.le_refl n)

/-- A decimal digit run of at least two characters denotes a value of at
least 10 (decimal strings of integers carry no leading zeros). -/
theorem ten_le_of_two_le_length_pyDigits (n : Nat)
    (h : 2 ≤ (pyDigits n).length) : 10 ≤ n := by
  by_contra hn
  push_neg at hn
  interval_cases n <;> revert h <;> decide

theorem pyInt_pyStr (i : Int) : pyInt (pyStr i) = i := by
  unfold pyStr pyInt
  by_cases h : i < 0
  · simp only [h, if_true, pyOfDigits_pyDigits]
    rw [Int.ofNat_natAbs_of_nonpos (le_of_lt h)]
    ring
  · simp only [h, if_false, pyOfDigits_pyDigits]
    exact Int.toNat_of_nonneg (not_lt.mp h)

/-- In-memory message record (`IndexMsg` in `indexer.py`): the constructor
normalises `chat_id` to an integer via `int(chat_id)`; `post_time` is the
message datetime, modelled as a timestamp. -/
structure IndexMsg where
  content : String
  url : String
  chat_id : Int
  post_time : Int
  sender : String
deriving DecidableEq, Repr

/-- Stored-field document held by the whoosh index: what `IndexMsg.as_dict`
produces and what `searcher.documents()` / hits hand back. `chat_id` is stored
as the decimal string `str(self.chat_id)`. -/
structure StoredDoc where
  content : String
  url : String
  chat_id : PyIntStr
  post_time : Int
  sender : String
deriving DecidableEq, Repr

/-- Model of `IndexMsg.as_dict`: serialises `chat_id` with `str`. -/
def IndexMsg.as_dict (m : IndexMsg) : StoredDoc :=
  ⟨m.content, m.url, pyStr m.chat_id, m.post_time, m.sender⟩

/-- Model of `IndexMsg(**msg_dict)`: the constructor parses the stored
`chat_id` string back with `int`. -/
def IndexMsg.ofDict (d : StoredDoc) : IndexMsg :=
  ⟨d.content, d.url, pyInt d.chat_id, d.post_time, d.sender⟩

/-- Whoosh field types occurring in this code base. -/
inductive FieldType where
  | TEXT : FieldType
  | ID : FieldType
  | DATETIME : FieldType
  | NUMERIC : FieldType
deriving DecidableEq, Repr

/-- A whoosh schema: named, typed fields. -/
structure WhooshSchema where
  fields : List (String × FieldType)
deriving DecidableEq, Repr

/-- Field names of a schema. Whoosh's `Schema.names()` returns them sorted;
we compare name lists up to permutation, which is exactly equality of the
sorted lists. -/
def WhooshSchema.names (s : WhooshSchema) : List String :=
  s.fields.map Prod.fst

/-- The schema declared on `IndexMsg` in `indexer.py`. `url` is the unique
field (`ID(stored=True, unique=True)`); `chat_id` is deliberately `TEXT`, not
`NUMERIC` (see the comment in the source about iterating field values). -/
def IndexMsg.schema : WhooshSchema :=
  ⟨[("content", .TEXT), ("url", .ID), ("chat_id", .TEXT),
    ("post_time", .DATETIME), ("sender", .TEXT)]⟩

namespace Indexer

/-- The assert in `Indexer.__init__` compares
`repr(self.ix.schema.names) == repr(IndexMsg.schema.names)`: equality of the
two sorted field-name lists, i.e. the name lists agree up to permutation.
Field types are not inspected. -/
def schemaNamesMatch (onDisk : WhooshSchema) : Bool :=
  onDisk.names.isPerm IndexMsg.schema.names

/-- Model of `Indexer.__init__`: `onDisk` is the schema of a pre-existing
index at `index_dir` (`none` when no index exists). With `from_scratch` the
directory is cleared and a fresh index with `IndexMsg.schema` is created;
otherwise the existing index is opened (or a fresh one created when absent).
The assert then fails (`AssertionError`) unless the field-name lists agree. -/
def init (onDisk : Option WhooshSchema) (from_scratch : Bool) :
    Except PyError WhooshSchema :=
  let ix := if from_scratch then IndexMsg.schema else onDisk.getD IndexMsg.schema
  if schemaNamesMatch ix then .ok ix else .error .assertionError

/-- Model of `Indexer.add_document`: whoosh's `writer.add_document` appends
the stored fields to the index unconditionally — the `unique=True` flag on
`url` is only consulted by `update_document`, never by `add_document`. -/
def add_document (store : List StoredDoc) (message : IndexMsg) : List StoredDoc :=
  store ++ [message.as_dict]

/-- Model of `Indexer.delete`: `writer.delete_by_term('url', url)` removes
every document whose `url` field holds that term. -/
def delete (store : List StoredDoc) (url : String) : List StoredDoc :=
  store.filter (fun d => !(d.url == url))

/-- Model of `searcher.document(url=url)`: the first stored-field document
matching the term, or `None`. -/
def document (store : List StoredDoc) (url : String) : Option StoredDoc :=
  store.find? (fun d => d.url == url)

/-- Model of `Indexer.update`: look the record up by `url`; when absent do
nothing; when present, patch `content` and call `writer.update_document`,
which first deletes every document sharing the unique `url` field and then
adds the patched document. -/
def update (store : List StoredDoc) (content : String) (url : String) :
    List StoredDoc :=
  match document store url with
  | none => store
  | some d => (store.filter (fun e => !(e.url == d.url))) ++ [{ d with content := content }]

/-- Model of `Indexer.count_by_query`: the number of documents matching the
keyword query, with the keyword filter abstracted as a predicate. -/
def count_by_query (store : List StoredDoc) (p : StoredDoc → Bool) : Nat :=
  (store.filter p).length

/-- Model of `Indexer.retrieve_random_document`:
`random.choice(list(searcher.documents()))`. The random draw is passed in as
`r`; `random.choice` picks the document at a uniform index below the length
and raises `IndexError` on an empty sequence. -/
def retrieve_random_document (store : List StoredDoc) (r : Nat) :
    Except PyError IndexMsg :=
  match store[r % store.length]? with
  | none => .error .indexError
  | some d => .ok (IndexMsg.ofDict d)

end Indexer

/-- A search hit (`SearchHit` in `indexer.py`): the reconstructed message and
the highlighted content snippet. -/
structure SearchHit where
  msg : IndexMsg
  highlighted : String
deriving DecidableEq, Repr

/-- A search result page (`SearchResult` in `indexer.py`). -/
structure SearchResult where
  hits : List SearchHit
  is_last_page : Bool
  total_results : Nat
deriving DecidableEq, Repr

/-- Sort order used by `Indexer.search`: whoosh is called with
`sortedby='post_time', reverse=True`, i.e. `post_time` descending. -/
def byPostTimeDesc (a b : StoredDoc) : Prop := b.post_time ≤ a.post_time

instance : DecidableRel byPostTimeDesc := fun a b =>
  inferInstanceAs (Decidable (b.post_time ≤ a.post_time))

instance : IsTotal StoredDoc byPostTimeDesc :=
  ⟨fun a b => le_total b.post_time a.post_time⟩

instance : IsTrans StoredDoc byPostTimeDesc :=
  ⟨fun _ _ _ hab hbc => le_trans hbc hab⟩

namespace Indexer

/-- Index tokens that whoosh derives from a stored `chat_id` decimal string:
the field is `TEXT(stored=True)` with the default `StandardAnalyzer`, whose
tokenizer keeps maximal word-character runs — the minus sign of a negative id
is stripped and only the digit run remains — and whose trailing `StopFilter`
drops tokens shorter than 2 characters (`minsize=2`). A decimal string
therefore yields its digit run as the single token when that run has at
least two characters, and no token at all otherwise. -/
def chatIdTokens (stored : PyIntStr) : List (List Nat) :=
  if 2 ≤ stored.digits.length then [stored.digits] else []

/-- Whether the query `Term('chat_id', str(c))` matches a stored `chat_id`
string: a directly constructed `Term` is not analyzed, so its text keeps the
minus sign of a negative `c` (and then can never equal a digit-run token);
a non-negative `c` matches exactly the documents one of whose index tokens
is the digit string of `c`. -/
def termMatchesChatId (c : Int) (stored : PyIntStr) : Bool :=
  !(pyStr c).neg && decide ((pyStr c).digits ∈ chatIdTokens stored)

/-- The whoosh chat filter of `Indexer.search`:
`q_filter = in_chats and Or([Term('chat_id', str(chat_id)) for chat_id in in_chats])`.
A `None` or empty `in_chats` is falsy in Python, so no filter is applied
(whoosh only installs a `FilterCollector` when the filter argument is truthy);
otherwise a document passes when some listed chat's `Term` query matches its
analyzed `chat_id` field. -/
def passesChatFilter (in_chats : Option (List Int)) (d : StoredDoc) : Bool :=
  match in_chats with
  | none => true
  | some cs => cs.isEmpty || cs.any (fun c => termMatchesChatId c d.chat_id)

/-- Documents of the store matching the parsed content query and the chat
filter (the candidate set whoosh's collector scores). -/
def searchMatches (store : List StoredDoc) (q : String → Bool)
    (in_chats : Option (List Int)) : List StoredDoc :=
  store.filter (fun d => q d.content && passesChatFilter in_chats d)

/-- The full result list of a search: the matches sorted by `post_time`
descending (`sortedby='post_time', reverse=True`). -/
def searchResults (store : List StoredDoc) (q : String → Bool)
    (in_chats : Option (List Int)) : List StoredDoc :=
  List.insertionSort byPostTimeDesc (searchMatches store q in_chats)

/-- Page count of a search, as whoosh's `ResultsPage` computes it:
`ceil(total / pagelen)`. -/
def pagecountOf (store : List StoredDoc) (q : String → Bool)
    (in_chats : Option (List Int)) (page_len : Nat) : Nat :=
  ((searchResults store q in_chats).length + page_len - 1) / page_len

/-- Model of `Indexer.search`, inlining whoosh's `Searcher.search_page` and
`ResultsPage`:
`search_page` rejects `pagenum < 1` (`ValueError`), then searches with
`limit = pagenum * pagelen` (whoosh rejects a limit below 1 with
`ValueError`); the matching documents are sorted by `post_time` descending,
`total` is the full match count, `pagecount = ceil(total / pagelen)`, a
`pagenum` that is both `> 1` and `> pagecount` raises
`ValueError("Asked for page ...")`, and the page holds the slice
`[(pagenum-1)*pagelen, pagenum*pagelen)` of the sorted results, with
`is_last_page()` true iff `pagecount == 0 or pagenum == pagecount`. -/
def search (store : List StoredDoc) (q : String → Bool)
    (in_chats : Option (List Int)) (page_len : Nat) (page_num : Nat)
    (hl : StoredDoc → String) : Except PyError SearchResult :=
  let results := searchResults store q in_chats
  let total := results.length
  if page_num < 1 then .error (.valueError "pagenum must be >= 1")
  else if page_num * page_len < 1 then .error (.valueError "limit must be >= 1")
  else
    let pagecount := (total + page_len - 1) / page_len
    if page_num > 1 ∧ pagecount < page_num then
      .error (.valueError
        ("Asked for page " ++ toString page_num ++ " of " ++ toString pagecount))
    else
      let hits := ((results.drop ((page_num - 1) * page_len)).take page_len).map
        (fun d => SearchHit.mk (IndexMsg.ofDict d) (hl d))
      .ok ⟨hits, pagecount == 0 || page_num == pagecount, total⟩

/-- Observer for the `is_last_page` flag of a search outcome. -/
def resultIsLast : Except PyError SearchResult → Option Bool
  | .ok r => some r.is_last_page
  | .error _ => none

end Indexer

/-- Concrete sample messages used by witnesses and counterexamples. -/
def msgA : IndexMsg := ⟨"hello", "https://t.me/c/1/1", 5, 100, "alice"⟩

def msgB : IndexMsg := ⟨"world", "https://t.me/c/1/2", 6, 200, "bob"⟩

def msgC : IndexMsg := ⟨"hello again", "https://t.me/c/1/3", 5, 300, "carol"⟩

/-- Concrete sample store of three indexed messages. -/
def sampleStore : List StoredDoc := [msgA.as_dict, msgB.as_dict, msgC.as_dict]

/-- Sample message stored with a negative chat id, as `download_history`
stores the raw `chat_id` rather than the normalized share id. -/
def msgD : IndexMsg := ⟨"negative chat", "https://t.me/c/123/4", -123, 400, "dave"⟩

/-- Splitting a list into `n` consecutive chunks of length `L` and
concatenating them gives the list back, provided `n` chunks suffice. -/
theorem flatten_chunks {α : Type} (L : Nat) :
    ∀ (n : Nat) (l : List α), l.length ≤ n * L →
      ((List.range n).map (fun i => (l.drop (i * L)).take L)).flatten = l := by
  intro n
  induction n with
  | zero =>
    intro l hl
    have hnil : l = [] := List.eq_nil_of_length_eq_zero (by omega)
    subst hnil
    rfl
  | succ n ih =>
    intro l hl
    rw [List.range_succ_eq_map, List.map_cons, List.map_map, List.flatten_cons]
    have hmap : (List.range n).map ((fun i => (l.drop (i * L)).take L) ∘ Nat.succ)
        = (List.range n).map (fun i => ((l.drop L).drop (i * L)).take L) := by
      apply List.map_congr_left
      intro i _
      simp only [Function.comp_apply]
      rw [List.drop_drop, Nat.succ_mul, Nat.add_comm (i * L) L]
    rw [hmap]
    have hlen : (l.drop L).length ≤ n * L := by
      rw [List.length_drop]
      rw [Nat.succ_mul] at hl
      omega
    rw [ih (l.drop L) hlen]
    simp only [Nat.zero_mul, List.drop_zero]
    exact List.take_append_drop L l

/-- A ceiling-division bound: `n` elements fit in `ceil(n / L)` pages of
length `L`. -/
theorem le_ceilDiv_mul (N L : Nat) (hL : 0 < L) : N ≤ ((N + L - 1) / L) * L := by
  have h1 := Nat.div_add_mod (N + L - 1) L
  have h2 : (N + L - 1) % L < L := Nat.mod_lt _ hL
  rw [Nat.mul_comm]
  generalize hX : L * ((N + L - 1) / L) = X at h1
  omega

namespace Indexer

/-- Characterisation of a successful `search` call: for a page number between
1 and the page count, the call returns the slice of the sorted results, the
total match count, and the last-page flag set exactly on the final page. -/
theorem search_ok_spec (store : List StoredDoc) (q : String → Bool)
    (cs : Option (List Int)) (L p : Nat) (hl : StoredDoc → String)
    (hL : 0 < L) (hp1 : 1 ≤ p) (hp2 : p ≤ pagecountOf store q cs L) :
    search store q cs L p hl =
      .ok ⟨(((searchResults store q cs).drop ((p - 1) * L)).take L).map
            (fun d => SearchHit.mk (IndexMsg.ofDict d) (hl d)),
          p == pagecountOf store q cs L,
          (searchResults store q cs).length⟩ := by
  have h1 : ¬ p < 1 := by omega
  have h2 : ¬ p * L < 1 := by
    have := Nat.mul_le_mul hp1 hL
    omega
  have h3 : ¬ (p > 1 ∧ pagecountOf store q cs L < p) := by
    rintro ⟨_, hcon⟩
    omega
  have hpc : ¬ pagecountOf store q cs L = 0 := by omega
  unfold search
  rw [if_neg h1, if_neg h2, if_neg (by exact h3)]
  have hb : ((pagecountOf store q cs L == 0) || (p == pagecountOf store q cs L))
      = (p == pagecountOf store q cs L) := by
    have h0 : (pagecountOf store q cs L == 0) = false := by
      simpa using hpc
    rw [h0, Bool.false_or]
  rw [show ((searchResults store q cs).length + L - 1) / L
      = pagecountOf store q cs L from rfl, hb]

end Indexer

/-- C1 counterexample: two `add_document` calls with the same `url` leave two
records with that `url`, so after the sequence settles the store does not
contain at most one record per `url` — the duplicate is neither rejected nor
routed through update. -/
theorem c1_url_uniqueness_counterexample :
    Indexer.count_by_query (Indexer.add_document (Indexer.add_document [] msgA) msgA)
      (fun d => d.url == msgA.url) = 2
    ∧ ¬ Indexer.count_by_query (Indexer.add_document (Indexer.add_document [] msgA) msgA)
        (fun d => d.url == msgA.url) ≤ 1 := by
  constructor
  · rfl
  · decide

/-- C1 amended: `add_document` appends the record unconditionally — the
`unique=True` flag on `url` is only honoured by `update` — so an add whose
`url` is already present always increases the number of records with that
`url` by one. -/
theorem c1_add_document_appends (store : List StoredDoc) (m : IndexMsg) :
    Indexer.add_document store m = store ++ [m.as_dict]
    ∧ Indexer.count_by_query (Indexer.add_document store m) (fun d => d.url == m.url)
      = Indexer.count_by_query store (fun d => d.url == m.url) + 1 := by
  refine ⟨rfl, ?_⟩
  unfold Indexer.count_by_query Indexer.add_document
  rw [List.filter_append]
  simp [IndexMsg.as_dict]

/-- C5: an `update` whose `url` is absent from the store succeeds and leaves
the store completely unchanged (the lookup returns `None` and no write
happens). -/
theorem c5_update_absent_noop (store : List StoredDoc) (c u : String)
    (h : Indexer.document store u = none) :
    Indexer.update store c u = store := by
  unfold Indexer.update
  rw [h]

/-- C5 witness: updating a url that is not in the sample store is a no-op. -/
theorem c5_update_absent_noop_witness :
    Indexer.document sampleStore "https://t.me/c/9/9" = none
    ∧ Indexer.update sampleStore "new text" "https://t.me/c/9/9" = sampleStore :=
  ⟨by rfl, c5_update_absent_noop sampleStore "new text" "https://t.me/c/9/9" (by rfl)⟩

/-- C7: `retrieve_random_document` on an empty store raises the recoverable
`IndexError` (the empty-index signal the frontend catches), and on a store
containing a document at index `r` it returns exactly that document, so a
uniformly drawn `r` below the store size yields a uniformly chosen record. -/
theorem c7_retrieve_random_spec (store : List StoredDoc) (r : Nat) (d : StoredDoc) :
    (store = [] → Indexer.retrieve_random_document store r = .error .indexError)
    ∧ (store[r]? = some d →
        Indexer.retrieve_random_document store r = .ok (IndexMsg.ofDict d)) := by
  constructor
  · intro h
    subst h
    simp [Indexer.retrieve_random_document]
  · intro h
    have hr : r < store.length := (List.getElem?_eq_some.mp h).1
    unfold Indexer.retrieve_random_document
    rw [Nat.mod_eq_of_lt hr, h]

/-- C7 witness: the empty store raises `IndexError`; drawing index 1 from the
sample store returns its second message. -/
theorem c7_retrieve_random_spec_witness :
    Indexer.retrieve_random_document [] 0 = .error .indexError
    ∧ Indexer.retrieve_random_document sampleStore 1 = .ok (IndexMsg.ofDict msgB.as_dict) :=
  ⟨(c7_retrieve_random_spec [] 0 ⟨"", "", ⟨false, []⟩, 0, ""⟩).1 rfl,
   (c7_retrieve_random_spec sampleStore 1 msgB.as_dict).2 (by rfl)⟩

/-- C8: `delete` removes every record with the given `url`; deleting an
absent `url` leaves the store unchanged and raises no error; and a second
`delete` of the same `url` is a no-op on the already-deleted store. -/
theorem c8_delete_spec (store : List StoredDoc) (u : String) :
    Indexer.count_by_query (Indexer.delete store u) (fun d => d.url == u) = 0
    ∧ (Indexer.document store u = none → Indexer.delete store u = store)
    ∧ Indexer.delete (Indexer.delete store u) u = Indexer.delete store u := by
  refine ⟨?_, ?_, ?_⟩
  · unfold Indexer.count_by_query Indexer.delete
    rw [List.filter_filter]
    simp
  · intro h
    unfold Indexer.document at h
    unfold Indexer.delete
    rw [List.filter_eq_self]
    intro a ha
    have hfind := List.find?_eq_none.mp h a ha
    simpa using hfind
  · unfold Indexer.delete
    rw [List.filter_filter]
    simp

/-- C8 witness: deleting a url present in the sample store leaves no record
with it, and deleting an absent url returns the store unchanged. -/
theorem c8_delete_spec_witness :
    Indexer.count_by_query (Indexer.delete sampleStore msgA.url)
      (fun d => d.url == msgA.url) = 0
    ∧ Indexer.delete sampleStore "https://t.me/c/9/9" = sampleStore :=
  ⟨(c8_delete_spec sampleStore msgA.url).1,
   (c8_delete_spec sampleStore "https://t.me/c/9/9").2.1 (by rfl)⟩

/-- C10: reconstructing a message from its stored dictionary
(`IndexMsg(**m.as_dict())`) loses no field — `as_dict` renders `chat_id` as
its decimal string and the constructor parses it back to the same integer,
and `content`, `url`, `post_time`, `sender` are carried through verbatim. -/
theorem c10_as_dict_roundtrip (m : IndexMsg) : IndexMsg.ofDict m.as_dict = m := by
  cases m with
  | mk content url chat_id post_time sender =>
    unfold IndexMsg.as_dict IndexMsg.ofDict
    simp [pyInt_pyStr]

/-- C2 counterexample: with a present but empty chat filter, the Python
expression `in_chats and Or(...)` is falsy and no filter is applied, so the
search returns the hit for `msgA` even though its `chat_id` 5 is not a member
of the empty filter set. -/
theorem c2_chat_filter_counterexample :
    Indexer.search [msgA.as_dict] (fun _ => true) (some []) 10 1 (fun _ => "")
      = .ok ⟨[⟨msgA, ""⟩], true, 1⟩
    ∧ msgA.chat_id ∉ ([] : List Int) := by
  constructor
  · rfl
  · simp

/-- C2 amended: for a present and non-empty chat filter set, every hit that a
successful search returns agrees with some member of the set up to sign —
the analyzer indexes the stored decimal `chat_id` string with the minus sign
stripped, so only the absolute value is compared — and its absolute value has
at least two digits (single-character tokens are dropped by the analyzer, so
records with an absolute chat id below 10 are never returned by a filter). -/
theorem c2_chat_filter_sound (store : List StoredDoc) (q : String → Bool)
    (cs : List Int) (L p : Nat) (hl : StoredDoc → String)
    (res : SearchResult) (hit : SearchHit)
    (hcs : cs ≠ [])
    (hres : Indexer.search store q (some cs) L p hl = .ok res)
    (hhit : hit ∈ res.hits) :
    (hit.msg.chat_id.natAbs : Int) ∈ cs ∧ 10 ≤ hit.msg.chat_id.natAbs := by
  unfold Indexer.search at hres
  split at hres
  · exact absurd hres (by simp)
  · split at hres
    · exact absurd hres (by simp)
    · simp only [] at hres
      split at hres
      · exact absurd hres (by simp)
      · rw [Except.ok.injEq] at hres
        subst hres
        rcases List.mem_map.mp hhit with ⟨d, hd, hmk⟩
        have hd2 : d ∈ Indexer.searchResults store q (some cs) :=
          List.mem_of_mem_drop (List.mem_of_mem_take hd)
        unfold Indexer.searchResults at hd2
        have hd3 : d ∈ Indexer.searchMatches store q (some cs) :=
          (List.perm_insertionSort byPostTimeDesc _).mem_iff.mp hd2
        unfold Indexer.searchMatches at hd3
        have hd4 := (List.mem_filter.mp hd3).2
        rw [Bool.and_eq_true] at hd4
        have hd5 := hd4.2
        unfold Indexer.passesChatFilter at hd5
        rw [Bool.or_eq_true] at hd5
        rcases hd5 with he | hany
        · exact absurd (List.isEmpty_iff.mp he) hcs
        · rcases List.any_eq_true.mp hany with ⟨c, hc, hterm⟩
          unfold Indexer.termMatchesChatId at hterm
          rw [Bool.and_eq_true] at hterm
          obtain ⟨hneg, hmem⟩ := hterm
          have hc0 : ¬ c < 0 := by
            intro hlt
            rw [show pyStr c = ⟨true, pyDigits c.natAbs⟩ from by
              unfold pyStr; rw [if_pos hlt]] at hneg
            simp at hneg
          have hdigits : (pyStr c).digits ∈ Indexer.chatIdTokens d.chat_id :=
            of_decide_eq_true hmem
          have hps : pyStr c = ⟨false, pyDigits c.toNat⟩ := by
            unfold pyStr; rw [if_neg hc0]
          rw [hps] at hdigits
          unfold Indexer.chatIdTokens at hdigits
          by_cases hlen : 2 ≤ d.chat_id.digits.length
          case neg =>
            rw [if_neg hlen] at hdigits
            exact absurd hdigits (List.not_mem_nil _)
          rw [if_pos hlen] at hdigits
          have hdeq : pyDigits c.toNat = d.chat_id.digits := by
            simpa using hdigits
          subst hmk
          have hval : pyOfDigits d.chat_id.digits = c.toNat := by
            rw [← hdeq]
            exact pyOfDigits_pyDigits c.toNat
          have habs : (IndexMsg.ofDict d).chat_id.natAbs = c.toNat := by
            show (pyInt d.chat_id).natAbs = c.toNat
            unfold pyInt
            by_cases hneg2 : d.chat_id.neg = true
            · rw [if_pos hneg2, Int.natAbs_neg, hval, Int.natAbs_ofNat]
            · rw [if_neg hneg2, hval, Int.natAbs_ofNat]
          refine ⟨?_, ?_⟩
          · show ((IndexMsg.ofDict d).chat_id.natAbs : Int) ∈ cs
            rw [habs, Int.toNat_of_nonneg (not_lt.mp hc0)]
            exact hc
          · show 10 ≤ (IndexMsg.ofDict d).chat_id.natAbs
            rw [habs]
            exact ten_le_of_two_le_length_pyDigits c.toNat (by rw [hdeq]; exact hlen)

/-- C2 witness: filtering for chat 123 returns the record that was stored
with chat_id -123 (the analyzer strips the minus sign), and as the theorem
states, its absolute value 123 is in the filter set and is at least 10. -/
theorem c2_chat_filter_sound_witness :
    ((123 : Int) :: []) ≠ []
    ∧ Indexer.search [msgD.as_dict] (fun _ => true) (some [123]) 10 1 (fun _ => "")
        = .ok ⟨[⟨msgD, ""⟩], true, 1⟩
    ∧ ((msgD.chat_id.natAbs : Int) ∈ [(123 : Int)] ∧ 10 ≤ msgD.chat_id.natAbs) :=
  ⟨by simp, by rfl,
   c2_chat_filter_sound [msgD.as_dict] (fun _ => true) [123] 10 1 (fun _ => "")
     ⟨[⟨msgD, ""⟩], true, 1⟩ ⟨msgD, ""⟩ (by simp) (by rfl) (by simp)⟩

/-- C3: pagination completeness and ordering. For any store, query, chat
filter and page length `L > 0`, page `p` (1-indexed, up to the page count)
returns exactly the slice `[(p-1)*L, p*L)` of the full result list together
with the total match count; the full result list is a permutation of the
match set (no duplicates, no omissions), it is sorted by `post_time`
descending and by nothing else (in particular no relevance score), and
concatenating the slices of pages `1..ceil(N/L)` yields the full result
list. -/
theorem c3_pagination_complete (store : List StoredDoc) (q : String → Bool)
    (cs : Option (List Int)) (L p : Nat) (hl : StoredDoc → String)
    (hL : 0 < L) (hp1 : 1 ≤ p) (hp2 : p ≤ Indexer.pagecountOf store q cs L) :
    Indexer.search store q cs L p hl =
      .ok ⟨(((Indexer.searchResults store q cs).drop ((p - 1) * L)).take L).map
            (fun d => SearchHit.mk (IndexMsg.ofDict d) (hl d)),
          p == Indexer.pagecountOf store q cs L,
          (Indexer.searchResults store q cs).length⟩
    ∧ (Indexer.searchResults store q cs).Perm (Indexer.searchMatches store q cs)
    ∧ List.Sorted byPostTimeDesc (Indexer.searchResults store q cs)
    ∧ ((List.range (Indexer.pagecountOf store q cs L)).map
        (fun i => ((Indexer.searchResults store q cs).drop (i * L)).take L)).flatten
      = Indexer.searchResults store q cs := by
  refine ⟨Indexer.search_ok_spec store q cs L p hl hL hp1 hp2, ?_, ?_, ?_⟩
  · exact List.perm_insertionSort _ _
  · exact List.sorted_insertionSort _ _
  · exact flatten_chunks L _ _
      (le_ceilDiv_mul (Indexer.searchResults store q cs).length L hL)

/-- C3 witness: the three-message sample store with page length 2 has two
pages; page 2 is the last page and holds the single remaining message, and
the two page slices concatenate to the full sorted result list. -/
theorem c3_pagination_complete_witness :
    0 < 2 ∧ 1 ≤ 2 ∧ 2 ≤ Indexer.pagecountOf sampleStore (fun _ => true) none 2
    ∧ (Indexer.search sampleStore (fun _ => true) none 2 2 (fun _ => "") =
        .ok ⟨(((Indexer.searchResults sampleStore (fun _ => true) none).drop ((2 - 1) * 2)).take 2).map
              (fun d => SearchHit.mk (IndexMsg.ofDict d) ((fun _ => "") d)),
            2 == Indexer.pagecountOf sampleStore (fun _ => true) none 2,
            (Indexer.searchResults sampleStore (fun _ => true) none).length⟩
      ∧ (Indexer.searchResults sampleStore (fun _ => true) none).Perm
          (Indexer.searchMatches sampleStore (fun _ => true) none)
      ∧ List.Sorted byPostTimeDesc (Indexer.searchResults sampleStore (fun _ => true) none)
      ∧ ((List.range (Indexer.pagecountOf sampleStore (fun _ => true) none 2)).map
          (fun i => ((Indexer.searchResults sampleStore (fun _ => true) none).drop (i * 2)).take 2)).flatten
        = Indexer.searchResults sampleStore (fun _ => true) none) :=
  ⟨by decide, by decide, by decide,
   c3_pagination_complete sampleStore (fun _ => true) none 2 2 (fun _ => "")
     (by decide) (by decide) (by decide)⟩

/-- C4 counterexample: on an empty store, requesting page 2 does not return
an empty hit list with `is_last_page = true` — whoosh's `ResultsPage` raises
`ValueError` for any page number that is both greater than 1 and greater than
the page count. -/
theorem c4_past_end_counterexample :
    Indexer.search [] (fun _ => true) none 10 2 (fun _ => "")
      = .error (.valueError "Asked for page 2 of 0") := by
  rfl

/-- C4 amended: for pages 1 through `ceil(N/L)` the `is_last_page` flag is
true exactly on the final page; requesting page 1 of an empty result set
succeeds with an empty hit list, `is_last_page = true` and zero total; but
any page number beyond both 1 and the page count makes `search` raise
`ValueError` instead of returning an empty page. -/
theorem c4_last_page_flag (store : List StoredDoc) (q : String → Bool)
    (cs : Option (List Int)) (L p : Nat) (hl : StoredDoc → String)
    (hL : 0 < L) :
    (1 ≤ p → p ≤ Indexer.pagecountOf store q cs L →
      Indexer.resultIsLast (Indexer.search store q cs L p hl)
        = some (p == Indexer.pagecountOf store q cs L))
    ∧ ((Indexer.searchResults store q cs).length = 0 →
        Indexer.search store q cs L 1 hl = .ok ⟨[], true, 0⟩)
    ∧ (1 < p → Indexer.pagecountOf store q cs L < p →
        Indexer.search store q cs L p hl = .error (.valueError
          ("Asked for page " ++ toString p ++ " of "
            ++ toString (Indexer.pagecountOf store q cs L)))) := by
  refine ⟨?_, ?_, ?_⟩
  · intro hp1 hp2
    rw [Indexer.search_ok_spec store q cs L p hl hL hp1 hp2]
    rfl
  · intro hN
    have hres : Indexer.searchResults store q cs = [] :=
      List.eq_nil_of_length_eq_zero hN
    have hdiv : (L - 1) / L = 0 := Nat.div_eq_of_lt (by omega)
    have hL0 : ¬ L = 0 := by omega
    unfold Indexer.search
    rw [hres]
    simp [hdiv, hL0]
  · intro hp1 hp2
    have h1 : ¬ p < 1 := by omega
    have h2 : ¬ p * L < 1 := by
      have := Nat.mul_le_mul (show 1 ≤ p by omega) hL
      omega
    unfold Indexer.pagecountOf at hp2 ⊢
    unfold Indexer.search
    rw [if_neg h1, if_neg h2, if_pos ⟨hp1, hp2⟩]

/-- C4 witness: on the empty store with page length 10, page 1 succeeds with
an empty last page while page 2 raises `ValueError`. -/
theorem c4_last_page_flag_witness :
    0 < 10
    ∧ ((1 ≤ 2 → 2 ≤ Indexer.pagecountOf [] (fun _ => true) none 10 →
        Indexer.resultIsLast (Indexer.search [] (fun _ => true) none 10 2 (fun _ => ""))
          = some (2 == Indexer.pagecountOf [] (fun _ => true) none 10))
      ∧ ((Indexer.searchResults [] (fun _ => true) none).length = 0 →
          Indexer.search [] (fun _ => true) none 10 1 (fun _ => "") = .ok ⟨[], true, 0⟩)
      ∧ (1 < 2 → Indexer.pagecountOf [] (fun _ => true) none 10 < 2 →
          Indexer.search [] (fun _ => true) none 10 2 (fun _ => "")
            = .error (.valueError
              ("Asked for page " ++ toString 2 ++ " of "
                ++ toString (Indexer.pagecountOf [] (fun _ => true) none 10))))) :=
  ⟨by decide, c4_last_page_flag [] (fun _ => true) none 10 2 (fun _ => "") (by decide)⟩

/-- Unfolding of `update` when the lookup finds a record: whoosh's
`update_document` deletes every document sharing the unique `url` value and
adds the patched document. -/
theorem update_eq_of_found (store : List StoredDoc) (c u : String) (d : StoredDoc)
    (hfound : Indexer.document store u = some d) :
    Indexer.update store c u
      = (store.filter (fun e => !(e.url == d.url))) ++ [{ d with content := c }] := by
  unfold Indexer.update
  rw [hfound]

/-- C6: on a store whose urls are unique, updating a present `url` replaces
only that record's `content`, carrying `url`, `chat_id`, `post_time` and
`sender` over from the existing record; every record with a different `url`
is untouched (even in order), and the store size is unchanged. -/
theorem c6_update_partial_patch (store : List StoredDoc) (c u : String) (d : StoredDoc)
    (hfound : Indexer.document store u = some d)
    (huniq : Indexer.count_by_query store (fun e => e.url == u) ≤ 1) :
    Indexer.document (Indexer.update store c u) u
      = some ⟨c, d.url, d.chat_id, d.post_time, d.sender⟩
    ∧ (Indexer.update store c u).filter (fun e => !(e.url == u))
      = store.filter (fun e => !(e.url == u))
    ∧ (Indexer.update store c u).length = store.length := by
  have hdu : d.url = u := by
    have hbeq := List.find?_some (show List.find? (fun e => e.url == u) store = some d
      from hfound)
    exact eq_of_beq hbeq
  rw [update_eq_of_found store c u d hfound, hdu]
  refine ⟨?_, ?_, ?_⟩
  · unfold Indexer.document
    rw [List.find?_append]
    have h1 : List.find? (fun e => e.url == u) (store.filter (fun e => !(e.url == u)))
        = none := by
      rw [List.find?_eq_none]
      intro x hx
      have hfx := (List.mem_filter.mp hx).2
      simp at hfx ⊢
      exact hfx
    rw [h1, Option.none_or]
    simp
  · rw [List.filter_append, List.filter_filter]
    simp
  · rw [List.length_append]
    have hcount : List.countP (fun e => e.url == u) store = 1 := by
      have hpos : 0 < List.countP (fun e => e.url == u) store := by
        rw [List.countP_pos_iff]
        refine ⟨d, List.mem_of_find?_eq_some hfound, ?_⟩
        rw [hdu]
        exact beq_self_eq_true u
      unfold Indexer.count_by_query at huniq
      rw [← List.countP_eq_length_filter] at huniq
      omega
    have hsplit := (List.filter_append_perm (fun e => e.url == u) store).length_eq
    rw [List.length_append, ← List.countP_eq_length_filter,
      ← List.countP_eq_length_filter] at hsplit
    rw [← List.countP_eq_length_filter]
    simp only [List.length_cons, List.length_nil]
    omega

/-- C6 witness: patching the content of `msgA` in the sample store keeps its
other fields, leaves the other records unchanged, and keeps the store size. -/
theorem c6_update_partial_patch_witness :
    Indexer.document sampleStore msgA.url = some msgA.as_dict
    ∧ (Indexer.document (Indexer.update sampleStore "new text" msgA.url) msgA.url
        = some ⟨"new text", msgA.as_dict.url, msgA.as_dict.chat_id,
            msgA.as_dict.post_time, msgA.as_dict.sender⟩
      ∧ (Indexer.update sampleStore "new text" msgA.url).filter
          (fun e => !(e.url == msgA.url))
        = sampleStore.filter (fun e => !(e.url == msgA.url))
      ∧ (Indexer.update sampleStore "new text" msgA.url).length = sampleStore.length) :=
  ⟨by rfl,
   c6_update_partial_patch sampleStore "new text" msgA.url msgA.as_dict
     (by rfl) (by decide)⟩

/-- The historical on-disk schema in which `chat_id` was a `NUMERIC` field —
the very migration the source comments on. Its field names coincide with the
current schema; only the type of `chat_id` differs. -/
def legacySchema : WhooshSchema :=
  ⟨[("content", .TEXT), ("url", .ID), ("chat_id", .NUMERIC),
    ("post_time", .DATETIME), ("sender", .TEXT)]⟩

/-- A schema whose field names differ from the expected ones (`url` renamed
to `link`). -/
def renamedSchema : WhooshSchema :=
  ⟨[("content", .TEXT), ("link", .ID), ("chat_id", .TEXT),
    ("post_time", .DATETIME), ("sender", .TEXT)]⟩

/-- C9 counterexample: the legacy schema (`chat_id` stored as `NUMERIC`) is
incompatible with the expected schema, yet opening over it succeeds — the
assert compares only the sorted field names, which agree, so no
schema-mismatch error is raised. -/
theorem c9_schema_check_counterexample :
    legacySchema ≠ IndexMsg.schema
    ∧ Indexer.init (some legacySchema) false = .ok legacySchema := by
  constructor
  · decide
  · rfl

/-- C9 amended: opening (with `from_scratch = false`) over a pre-existing
index fails fast with the schema assertion exactly when the on-disk field
names differ (as sorted lists, i.e. up to permutation) from the expected
field names; field types are never compared. -/
theorem c9_schema_check_names_only (s : WhooshSchema) :
    (¬ s.names.Perm IndexMsg.schema.names →
      Indexer.init (some s) false = .error .assertionError)
    ∧ (s.names.Perm IndexMsg.schema.names →
      Indexer.init (some s) false = .ok s) := by
  constructor
  · intro h
    simp [Indexer.init, Indexer.schemaNamesMatch, List.isPerm_iff, h]
  · intro h
    simp [Indexer.init, Indexer.schemaNamesMatch, List.isPerm_iff, h]

/-- C9 witness: opening over the schema with the renamed `link` field fails
with the assertion error. -/
theorem c9_schema_check_names_only_witness :
    Indexer.init (some renamedSchema) false = .error .assertionError :=
  (c9_schema_check_names_only renamedSchema).1
    (fun hp => absurd (List.isPerm_iff.mpr hp) (by decide))

end TgSearcher
